import Mathlib

/-!
Verification development for the sarj-chatbot-backend repository.

The Python source is shallowly embedded: pure functions become Lean
functions, generator-based streaming handlers become functions from an
explicit "world" (the outcomes of the external model-provider, HTTP and
clock calls) to the list of emitted events, exceptions become `Except`,
and Python dictionaries become association lists over a small JSON value
type.  Floating-point times and temperatures are abstracted as integers
(no claim depends on their numeric values).
-/

namespace Sarj

/-- A JSON-like value, the codomain of Python dict values flowing through
the tool layer (`tools/weather.py`) and the request bodies (`main.py`). -/
inductive JVal where
  | str (s : String)
  | int (n : Int)
  | bool (b : Bool)
  | arr (xs : List JVal)
  | obj (fs : List (String × JVal))
  deriving Repr

/-- A Python dict with string keys: an association list. -/
abbrev Dict := List (String × JVal)

/-- Keyword-argument mappings passed to the weather tools. -/
abbrev Args := List (String × JVal)

/-- Python `round(x, 1)` on our integer abstraction of floats: the
identity (temperatures are carried opaquely; no claim inspects them). -/
def round1 (x : Int) : Int := x

/-- Dictionary access `d[k]`: raises `KeyError` (modelled as `Except.error`)
when the key is absent. -/
def req {α : Type} : Option α → Except String α
  | some a => Except.ok a
  | none => Except.error "KeyError"

/-! ## tools/weather.py — get_current_weather -/

/-- The fields of the OpenWeatherMap current-weather JSON payload that
`get_current_weather` accesses; `none` models a missing key (whose access
raises) or, for the `.get`-defaulted fields, an absent key. -/
structure CurrentPayload where
  name : Option String
  sys_country : Option String
  main_temp : Option Int
  main_feels_like : Option Int
  weather0_description : Option String
  main_humidity : Option Int
  main_pressure : Option Int
  wind_speed : Option Int
  wind_deg : Option Int
  visibility : Option Int
  weather0_icon : Option String
  dt : Option Int
  deriving Repr

/-- Outcome of the upstream `requests.get` in `get_current_weather`:
the call raises (timeout, network error), or returns a response with a
status code and a body whose JSON decoding / field layout is `body`
(`Except.error` = `response.json()` raising on a malformed payload). -/
inductive CurrentOutcome where
  | exn (msg : String)
  | resp (status : Nat) (body : Except String CurrentPayload)

/-- The `try`-block body of `get_current_weather`; `Except.error` is an
uncaught Python exception reaching the function's own `except` clause. -/
def getCurrentWeatherE (units : JVal) (w : CurrentOutcome) : Except String Dict :=
  let api_units := match units with | .str "celsius" => "metric" | _ => "imperial"
  match w with
  | .exn m => Except.error m
  | .resp status body =>
    if status ≠ 200 then
      Except.ok [("error", .str ("Weather API error: " ++ toString status)),
                 ("error_code", .str "api_error")]
    else
      match body with
      | .error m => Except.error m
      | .ok d =>
        match d.name, d.sys_country, d.main_temp, d.main_feels_like,
              d.weather0_description, d.main_humidity, d.main_pressure,
              d.weather0_icon, d.dt with
        | some name, some country, some temp, some feels, some description,
          some humidity, some pressure, some icon, some dt =>
          Except.ok
            [("city", .str name), ("country", .str country),
             ("temperature", .int (round1 temp)), ("feels_like", .int (round1 feels)),
             ("description", .str description), ("humidity", .int humidity),
             ("pressure", .int pressure),
             ("wind_speed", .int (d.wind_speed.getD 0)),
             ("wind_direction", .int (d.wind_deg.getD 0)),
             ("visibility", .int ((d.visibility.getD 0) / 1000)),
             ("units", .str api_units), ("icon", .str icon), ("timestamp", .int dt)]
        | _, _, _, _, _, _, _, _, _ => Except.error "KeyError"

/-- Source `get_current_weather(city, units="celsius")`: total — every internal
exception is caught and converted to the `unknown_error` envelope.
The `city` argument only feeds the upstream request, which is absorbed
into the outcome `w`. -/
def get_current_weather (city : JVal) (units : JVal) (w : CurrentOutcome) : Dict :=
  match getCurrentWeatherE units w with
  | .ok d => d
  | .error m =>
    [("error", .str ("Unexpected error getting weather data: " ++ m)),
     ("error_code", .str "unknown_error")]

/-! ## tools/weather.py — get_weather_forecast -/

/-- One entry of the forecast payload's `"list"`; field accesses on
missing (`none`) fields raise. -/
structure ForecastItem where
  dt_txt : Option String
  temp_max : Option Int
  temp_min : Option Int
  description : Option String
  icon : Option String
  humidity : Option Int
  wind_speed : Option Int
  deriving Repr

/-- The forecast payload: its `"list"` of 3-hourly items and the
`"city"` sub-object's fields. -/
structure ForecastPayload where
  list : Option (List ForecastItem)
  city_name : Option String
  city_country : Option String
  deriving Repr

/-- Outcome of the upstream `requests.get` in `get_weather_forecast`. -/
inductive ForecastOutcome where
  | exn (msg : String)
  | resp (status : Nat) (body : Except String ForecastPayload)

/-- One aggregated daily forecast entry (`daily_data` in the source). -/
structure Daily where
  date : String
  high_temp : Int
  low_temp : Int
  description : String
  icon : String
  humidity : Int
  wind_speed : Int
  deriving DecidableEq, Repr

/-- The date-grouping loop of `get_weather_forecast`: folds the 3-hourly
items into one `Daily` per calendar date, mirroring the source's
`current_date` / `daily_data` accumulator (Python's empty initial dict is
`none`; the final `if daily_data: forecasts.append(daily_data)` is the
base case). -/
def forecastLoop : List ForecastItem → Option String → Option Daily →
    Except String (List Daily)
  | [], _, daily => Except.ok (match daily with | some dd => [dd] | none => [])
  | item :: rest, current_date, daily =>
    match item.dt_txt with
    | none => Except.error "KeyError"
    | some dtxt =>
      let date_str := (dtxt.splitOn " ").headD ""
      if current_date ≠ some date_str then
        -- `if current_date and daily_data:` — both truthy (non-empty)
        let saved : List Daily :=
          match current_date, daily with
          | some cd, some dd => if cd ≠ "" then [dd] else []
          | _, _ => []
        match item.temp_max, item.temp_min, item.description, item.icon,
              item.humidity, item.wind_speed with
        | some high, some low, some desc, some icon, some hum, some wind =>
          match forecastLoop rest (some date_str)
              (some ⟨date_str, high, low, desc, icon, hum, wind⟩) with
          | .ok tail0 => Except.ok (saved ++ tail0)
          | .error m => Except.error m
        | _, _, _, _, _, _ => Except.error "KeyError"
      else
        match daily with
        | none => Except.error "KeyError"  -- `daily_data` is still the empty dict
        | some dd =>
          match item.temp_max, item.temp_min with
          | some high, some low =>
            forecastLoop rest current_date
              (some { dd with high_temp := max dd.high_temp high,
                              low_temp := min dd.low_temp low })
          | _, _ => Except.error "KeyError"

/-- Serialization of one `Daily` into the returned forecast entry, after
the temperature-rounding loop. -/
def dailyDict (d : Daily) : JVal :=
  .obj [("date", .str d.date), ("high_temp", .int (round1 d.high_temp)),
        ("low_temp", .int (round1 d.low_temp)), ("description", .str d.description),
        ("icon", .str d.icon), ("humidity", .int d.humidity),
        ("wind_speed", .int d.wind_speed)]

/-- The `try`-block body of `get_weather_forecast`.  `days = max(1, min(days, 5))`
requires an integer `days`; a non-integer raises `TypeError` inside the
`try` (Python's `min` on incomparable types). -/
def get_weather_forecastE (days0 : JVal) (w : ForecastOutcome) : Except String Dict :=
  match days0 with
  | .int n =>
    let days := max 1 (min n 5)
    match w with
    | .exn m => Except.error m
    | .resp status body =>
      if status ≠ 200 then
        Except.ok [("error", .str ("Forecast API error: " ++ toString status)),
                   ("error_code", .str "api_error")]
      else
        match body with
        | .error m => Except.error m
        | .ok d =>
          match d.list with
          | none => Except.error "KeyError"
          | some items =>
            match forecastLoop items none none with
            | .error m => Except.error m
            | .ok forecasts =>
              match d.city_name, d.city_country with
              | some city, some country =>
                let taken := forecasts.take days.toNat
                Except.ok
                  [("city", .str city), ("country", .str country),
                   ("forecast", .arr (taken.map dailyDict)),
                   ("days_requested", .int days),
                   ("days_returned", .int taken.length)]
              | _, _ => Except.error "KeyError"
  | _ => Except.error "TypeError: int argument required"

/-- Source `get_weather_forecast(city, days=5)`: total; internal exceptions are
converted to the `unknown_error` envelope. -/
def get_weather_forecast (city : JVal) (days : JVal) (w : ForecastOutcome) : Dict :=
  match get_weather_forecastE days w with
  | .ok d => d
  | .error m =>
    [("error", .str ("Error getting weather forecast: " ++ m)),
     ("error_code", .str "unknown_error")]

/-! ## models/base.py — ModalStreamingHandler._execute_tool -/

/-- The outcomes of the (at most one) upstream weather-API call a single
tool execution performs; which component is consumed depends on the
dispatched function name. -/
structure ToolWorld where
  current : CurrentOutcome
  forecast : ForecastOutcome

/-- Binding of `**function_args` against `get_current_weather(city, units="celsius")`:
a missing required key or an unexpected keyword raises `TypeError` at the
call site, inside `_execute_tool`'s `try`. -/
def bindCurrentArgs (args : Args) : Except String (JVal × JVal) :=
  match args.lookup "city" with
  | none => Except.error "get_current_weather() missing 1 required positional argument: city"
  | some city =>
    if args.all (fun kv => kv.1 = "city" ∨ kv.1 = "units") then
      Except.ok (city, (args.lookup "units").getD (.str "celsius"))
    else
      Except.error "get_current_weather() got an unexpected keyword argument"

/-- Binding of `**function_args` against `get_weather_forecast(city, days=5)`. -/
def bindForecastArgs (args : Args) : Except String (JVal × JVal) :=
  match args.lookup "city" with
  | none => Except.error "get_weather_forecast() missing 1 required positional argument: city"
  | some city =>
    if args.all (fun kv => kv.1 = "city" ∨ kv.1 = "days") then
      Except.ok (city, (args.lookup "days").getD (.int 5))
    else
      Except.error "get_weather_forecast() got an unexpected keyword argument"

/-- Source `ModalStreamingHandler._execute_tool`: dispatches on the function
name; unknown names yield the structured error listing the known tools;
the surrounding `try` catches the argument-binding `TypeError`s (the tool
bodies themselves never raise — they catch internally). Total. -/
def execute_tool (function_name : String) (function_args : Args) (w : ToolWorld) : Dict :=
  if function_name = "get_current_weather" then
    match bindCurrentArgs function_args with
    | .ok (city, units) => get_current_weather city units w.current
    | .error m =>
      [("error", .str ("Tool execution failed: " ++ m)),
       ("function", .str function_name), ("arguments", .obj function_args)]
  else if function_name = "get_weather_forecast" then
    match bindForecastArgs function_args with
    | .ok (city, days) => get_weather_forecast city days w.forecast
    | .error m =>
      [("error", .str ("Tool execution failed: " ++ m)),
       ("function", .str function_name), ("arguments", .obj function_args)]
  else
    [("error", .str ("Unknown function: " ++ function_name)),
     ("available_functions", .arr [.str "get_current_weather", .str "get_weather_forecast"])]

/-! ## The streaming event protocol

The handlers are Python generators yielding SSE-framed JSON objects
(`_format_sse`).  We model the yielded sequence at the event level; the
framing is an injective serialization of these constructors.  The
context-recording calls (`set_model_name`, `set_user_message`) made by
the `ContextAwareModalStreamingHandler` base class (whose definition is
not in the tree) yield no events; following the spec's description of
the Conversation State Tracker as a pure data holder they are modelled
as non-failing state recording and elided from the event trace. -/

inductive Event where
  | text_start
  | text_delta (delta : String)
  | tool_call (function_name : String) (arguments : Args)
  | weather_data (data : Dict) (execution_time : Nat) (city : JVal)
  | error (message : String)
  | done (total_time : Nat) (model : String)
  deriving Repr

def Event.isDone : Event → Bool
  | .done _ _ => true
  | _ => false

def Event.isError : Event → Bool
  | .error _ => true
  | _ => false

def Event.isToolCall : Event → Bool
  | .tool_call _ _ => true
  | _ => false

def Event.isWeatherData : Event → Bool
  | .weather_data _ _ _ => true
  | _ => false

/-- The outcome of a streaming completion (the commentary turn): the
per-chunk contents pulled before either exhaustion or an exception.
A chunk whose content is `none` (null) or `""` is falsy and skipped by
the `if chunk... content:` guard; `interrupt = some m` means the call
itself, or the iteration after the listed chunks, raised. -/
structure StreamOutcome where
  chunks : List (Option String)
  interrupt : Option String

/-- The truthy chunk contents, in arrival order. -/
def StreamOutcome.deltas (o : StreamOutcome) : List String :=
  o.chunks.filterMap (fun c => c.bind (fun s => if s = "" then none else some s))

/-- Events yielded by `_stream_weather_commentary` (identical structure in
both handlers): `text_start` is yielded before the provider call, so it
precedes any commentary failure. -/
def commentaryEvents (o : StreamOutcome) : List Event :=
  [.text_start] ++ o.deltas.map Event.text_delta ++
    (match o.interrupt with
     | some m => [.error ("Commentary streaming error: " ++ m)]
     | none => [])

/-! ## models/chatgpt.py — ChatGPTStreamingHandler -/

/-- One entry of `message.tool_calls`; `arguments` is the result of
`json.loads(tool_call.function.arguments)` on the provider-supplied
argument string — `Except.error` models malformed JSON raising. -/
structure OAToolCall where
  id : String
  name : String
  arguments : Except String Args

/-- Outcome of the first (non-streaming) completion: the call raised, or
returned a message with content and a (possibly empty, i.e. falsy)
tool-call list. -/
inductive OAFirst where
  | exn (msg : String)
  | msg (content : String) (tool_calls : List OAToolCall)

/-- All external outcomes one ChatGPT `stream_chat` request consumes:
the first turn, the per-tool-call weather-API worlds and measured
execution times (indexed by position), the commentary stream, and the
measured total time. -/
structure OAWorld where
  first : OAFirst
  toolWorlds : Nat → ToolWorld
  toolTimes : Nat → Nat
  commentary : StreamOutcome
  total_time : Nat

/-- The tool loop of `ChatGPTStreamingHandler._handle_with_tools`: yields
a `tool_call` / `weather_data` pair per call; a `json.loads` failure
raises out of the loop (second component) before that call's events. -/
def oaToolLoop (w : OAWorld) : List OAToolCall → Nat → List Event × Option String
  | [], _ => ([], none)
  | tc :: rest, i =>
    match tc.arguments with
    | .error m => ([], some m)
    | .ok function_args =>
      let tool_result := execute_tool tc.name function_args (w.toolWorlds i)
      let evts := [Event.tool_call tc.name function_args,
                   Event.weather_data tool_result (w.toolTimes i)
                     ((function_args.lookup "city").getD (.str "Unknown"))]
      let rest0 := oaToolLoop w rest (i + 1)
      (evts ++ rest0.1, rest0.2)

/-- Source `_handle_with_tools` followed by the commentary turn; an exception
escaping the loop propagates to `stream_chat`'s `except` clause. -/
def oaHandleWithTools (w : OAWorld) (tool_calls : List OAToolCall) : List Event :=
  match oaToolLoop w tool_calls 0 with
  | (evts, some m) => evts ++ [.error ("ChatGPT error: " ++ m)]
  | (evts, none) => evts ++ commentaryEvents w.commentary

/-- The `try`/`except` body of `ChatGPTStreamingHandler.stream_chat`. -/
def oaBody (w : OAWorld) : List Event :=
  match w.first with
  | .exn m => [.error ("ChatGPT error: " ++ m)]
  | .msg content tool_calls =>
    if tool_calls.isEmpty then
      [.text_start, .text_delta content]
    else
      oaHandleWithTools w tool_calls

/-- Source `ChatGPTStreamingHandler.stream_chat`: the `finally` clause always
appends the `done` event. -/
def chatgptStreamChat (model : String) (w : OAWorld) : List Event :=
  oaBody w ++ [.done w.total_time model]

/-! ## models/gemini.py — GeminiStreamingHandler -/

/-- A provider function call carried in a response part; `args` is
`dict(function_call.args)`, already a plain mapping. -/
structure GFunctionCall where
  name : String
  args : Args

/-- One part of `response.candidates[0].content.parts`: `function_call`
is `some` when the attribute exists and is truthy; `text` is `some` when
the attribute exists. -/
structure GPart where
  function_call : Option GFunctionCall
  text : Option String

/-- Outcome of the first `chat.send_message`: raised, or returned a
response with the given parts. -/
inductive GemFirst where
  | exn (msg : String)
  | response (parts : List GPart)

/-- All external outcomes one Gemini `stream_chat` request consumes. -/
structure GemWorld where
  first : GemFirst
  toolWorlds : Nat → ToolWorld
  toolTimes : Nat → Nat
  commentary : StreamOutcome
  total_time : Nat

/-- The tool loop of `GeminiStreamingHandler._handle_with_tools`; the
arguments are already mappings, so nothing in the loop raises. -/
def gemToolLoop (w : GemWorld) : List GFunctionCall → Nat → List Event
  | [], _ => []
  | fc :: rest, i =>
    let tool_result := execute_tool fc.name fc.args (w.toolWorlds i)
    [Event.tool_call fc.name fc.args,
     Event.weather_data tool_result (w.toolTimes i)
       ((fc.args.lookup "city").getD (.str "Unknown"))]
      ++ gemToolLoop w rest (i + 1)

/-- Source `GeminiStreamingHandler._handle_with_tools`: extracts the function
calls from the parts, runs the loop, then (`if function_responses:`,
whose length equals the number of calls) the commentary turn. -/
def gemHandleWithTools (w : GemWorld) (parts : List GPart) : List Event :=
  let function_calls := parts.filterMap (·.function_call)
  gemToolLoop w function_calls 0 ++
    (if function_calls.isEmpty then [] else commentaryEvents w.commentary)

/-- The full text of a Gemini plain-text response:
`"".join(part.text for part in parts if hasattr(part, "text"))`. -/
def gemFullText (parts : List GPart) : String :=
  String.join (parts.filterMap (·.text))

/-- The `try`/`except` body of `GeminiStreamingHandler.stream_chat`. -/
def gemBody (w : GemWorld) : List Event :=
  match w.first with
  | .exn m => [.error ("Gemini error: " ++ m)]
  | .response parts =>
    let has_function_calls := parts.any (fun p => p.function_call.isSome)
    if has_function_calls then
      gemHandleWithTools w parts
    else
      [.text_start, .text_delta (gemFullText parts)]

/-- Source `GeminiStreamingHandler.stream_chat`: the `finally` clause always
appends the `done` event. -/
def geminiStreamChat (model_name : String) (w : GemWorld) : List Event :=
  gemBody w ++ [.done w.total_time model_name]

/-! ## models/__init__.py — get_model and main.py — POST /api/chat/stream -/

inductive ModelHandler where
  | chatgpt
  | gemini
  deriving DecidableEq, Repr

/-- Source `get_model`: returns a handler for the two supported identifiers and
(implicitly) `None` otherwise. -/
def get_model (model_name : String) : Option ModelHandler :=
  if model_name = "gpt-5-nano" then some .chatgpt
  else if model_name = "gemini-2.0-flash-lite" then some .gemini
  else none

/-- Rendering of a JSON value inside an f-string (`f"Unsupported model: {model}"`). -/
def jvalText : JVal → String
  | .str s => s
  | .int n => toString n
  | .bool b => toString b
  | .arr _ => "[...]"
  | .obj _ => "{...}"

/-- The response of the `/api/chat/stream` route: a 400 with an `{error}`
JSON body, a 500 from the outer `except` clause, or an opened event
stream (only the `stream` constructor carries a handler, so a 400/500
opens no stream and performs no provider call). -/
inductive RouteResult where
  | badRequest (error : String)
  | serverError (error : String)
  | stream (handler : ModelHandler) (message : String) (model : String)
      (session_id : Option JVal)
  deriving Repr

def RouteResult.isBadRequest : RouteResult → Bool
  | .badRequest _ => true
  | _ => false

def RouteResult.isStream : RouteResult → Bool
  | .stream _ _ _ _ => true
  | _ => false

/-- Python `str.strip()` with no argument: drop whitespace from both
ends (structurally recursive so that concrete requests evaluate). -/
def pyStrip (s : String) : String :=
  String.mk (((s.toList.dropWhile Char.isWhitespace).reverse.dropWhile
    Char.isWhitespace).reverse)

/-- The validation prefix of `main.stream_chat`.  The request body is
`none` when `request.get_json()` returns `None` (non-JSON body); an empty
JSON object is falsy and also rejected.  `data.get("message", "")` on a
non-string value makes `.strip()` raise `AttributeError`, which the outer
`except` turns into a 500.  A missing `"model"` key defaults to
`"gpt-5-nano"`. -/
def routeStreamChat (body : Option Dict) : RouteResult :=
  match body with
  | none => .badRequest "Request body must be JSON"
  | some data =>
    if data.isEmpty then .badRequest "Request body must be JSON"
    else
      match (data.lookup "message").getD (.str "") with
      | .str rawMessage =>
        let message := pyStrip rawMessage
        let model := (data.lookup "model").getD (.str "gpt-5-nano")
        let session_id := data.lookup "session_id"
        if message = "" then .badRequest "Message is required"
        else
          -- `if model not in ["gpt-5-nano", "gemini-2.0-flash-lite"]:`
          match model with
          | .str t =>
            if t = "gpt-5-nano" ∨ t = "gemini-2.0-flash-lite" then
              match get_model t with
              | some handler => .stream handler message t session_id
              | none => .badRequest ("Unsupported model: " ++ t)
            else .badRequest ("Unsupported model: " ++ t)
          | other => .badRequest ("Unsupported model: " ++ jvalText other)
      | _ => .serverError "AttributeError: object has no attribute strip"

/-! ## context/manager.py — ConversationState and ContextManager

The `ContextManager` static methods read and write a context variable
holding one `ConversationState`; they are embedded as pure functions from
state to state.  The repository calls (`db_manager.*`) are external
collaborators: their returned ids and the clock are explicit arguments,
and persistence writes are returned as data. -/

structure PendingToolCall where
  function_name : String
  arguments : Args
  deriving Repr

/-- One entry of `ConversationState.tool_calls`, as appended by
`resolve_pending_tool_call`. -/
structure ToolCallRecord where
  function_name : String
  arguments : Args
  result : Dict
  execution_time_ms : Nat
  success : Bool
  error_message : Option String
  deriving Repr

structure ConversationState where
  session_id : String
  conversation_id : Option Int := none
  user_ip : Option String := none
  user_agent : Option String := none
  model_name : Option String := none
  current_user_message_id : Option Int := none
  current_assistant_message_id : Option Int := none
  response_content : String := ""
  response_start_time : Option Nat := none
  tool_calls : List ToolCallRecord := []
  pending_tool_call : Option PendingToolCall := none
  error_occurred : Bool := false
  error_message : Option String := none
  created_at : Nat
  deriving Repr

/-- Python truthiness of an optional integer id (`if not state.conversation_id:`):
`None` and `0` are falsy. -/
def optIntFalsy : Option Int → Bool
  | none => true
  | some n => n = 0

/-- A persistence write issued against the repository. -/
inductive DbWrite where
  | createMessage (conversation_id : Int) (role : String) (content : String)
      (model_name : Option String) (response_time_ms : Option Nat)
      (error_occurred : Bool) (error_message : Option String)
  | createToolCall (message_id : Int) (record : ToolCallRecord)
  deriving Repr

namespace ContextManager

/-- Source `start_conversation`: builds a fresh state bound to the conversation
id the repository returns.  `genUuid` is the `uuid.uuid4()` draw used
when `session_id` is falsy (absent or empty). -/
def start_conversation (session_id : Option String) (user_ip user_agent model_name : Option String)
    (genUuid : String) (convId : Int) (now : Nat) : ConversationState :=
  let sid := match session_id with
    | none => genUuid
    | some s => if s = "" then genUuid else s
  { session_id := sid, conversation_id := some convId,
    user_ip := user_ip, user_agent := user_agent,
    model_name := model_name, created_at := now }

/-- Source `set_user_message`: when the current state has no (truthy)
conversation id, the state is replaced by a fresh `start_conversation()`
(all-default arguments) before recording the user message id returned by
`create_message`. -/
def set_user_message (msgId : Int) (genUuid : String) (convId : Int) (now : Nat)
    (s : ConversationState) : ConversationState :=
  let s := if optIntFalsy s.conversation_id then
    start_conversation none none none none genUuid convId now
  else s
  { s with current_user_message_id := some msgId }

/-- Source `start_assistant_response`. -/
def start_assistant_response (now : Nat) (s : ConversationState) : ConversationState :=
  { s with response_content := "", response_start_time := some now }

/-- Source `append_response`. -/
def append_response (delta : String) (s : ConversationState) : ConversationState :=
  { s with response_content := s.response_content ++ delta }

/-- Source `set_pending_tool_call`: unconditionally overwrites the pending slot. -/
def set_pending_tool_call (function_name : String) (arguments : Args)
    (s : ConversationState) : ConversationState :=
  { s with pending_tool_call := some ⟨function_name, arguments⟩ }

/-- Source `resolve_pending_tool_call`: with no pending call, returns the state
unchanged; otherwise appends one `ToolCallRecord` (success iff no error
message) and clears the pending slot. -/
def resolve_pending_tool_call (result : Dict) (execution_time_ms : Nat)
    (error_message : Option String) (s : ConversationState) : ConversationState :=
  match s.pending_tool_call with
  | none => s
  | some p =>
    { s with
      tool_calls := s.tool_calls ++
        [⟨p.function_name, p.arguments, result, execution_time_ms,
          error_message.isNone, error_message⟩],
      pending_tool_call := none }

/-- Source `finalize_assistant_response`: with a falsy conversation id, returns
`None` having written nothing.  Otherwise it computes the response time —
raising `TypeError` if `start_assistant_response` never ran — persists
the assistant message and every tool-call record, and clears the
tool-call list.  `newMessageId` is the id `create_message` returns. -/
def finalize_assistant_response (error_occurred : Bool) (error_message : Option String)
    (now : Nat) (newMessageId : Int) (s : ConversationState) :
    Except String (Option Int × ConversationState × List DbWrite) :=
  if optIntFalsy s.conversation_id then
    Except.ok (none, s, [])
  else
    match s.response_start_time with
    | none => Except.error "TypeError: unsupported operand type for None"
    | some start =>
      let response_time_ms := now - start
      let writes := DbWrite.createMessage (s.conversation_id.getD 0) "assistant"
          s.response_content s.model_name (some response_time_ms)
          error_occurred error_message ::
        s.tool_calls.map (DbWrite.createToolCall newMessageId)
      let s' := { s with current_assistant_message_id := some newMessageId,
                         tool_calls := [] }
      Except.ok (some newMessageId, s', writes)

end ContextManager

/-! ## evaluators/chatgpt.py — LLMEvaluator.evaluate_message -/

/-- A stored evaluation row (the fields the claims need). -/
structure EvalRow where
  id : Int
  message_id : Int
  evaluator_model : String
  deriving Repr

/-- The evaluation store: the `evaluations` table. -/
structure EvalState where
  evaluations : List EvalRow
  deriving Repr

/-- Source `LLMEvaluator._is_already_evaluated`: any evaluation row for the
message id. -/
def is_already_evaluated (s : EvalState) (message_id : Int) : Bool :=
  s.evaluations.any (fun e => e.message_id = message_id)

/-- Outcome of the scoring completion: the call (or anything else in the
`try`) raised, or the model returned content whose `json.loads` outcome
is `parse`. -/
inductive LlmOutcome where
  | exn (msg : String)
  | content (parse : Except String Dict)

/-- External outcomes one `evaluate_message` call consumes:
`message_data` is the result of `_get_message_data(message_id)` (a pure
read), `llm` the scoring call, `newEvalId` the id `create_evaluation`
returns. -/
structure EvalWorld where
  message_data : Option Dict
  llm : LlmOutcome
  newEvalId : Int

def requiredEvalFields : List String :=
  ["helpfulness_score", "correctness_score", "politeness_score",
   "accuracy_score", "scope_adherence_score", "overall_score"]

/-- Python `d[k] = v` on the parsed evaluation dict. -/
def dictSet (d : Dict) (k : String) (v : JVal) : Dict :=
  if (d.lookup k).isSome then d.map (fun kv => if kv.1 = k then (k, v) else kv)
  else d ++ [(k, v)]

/-- Source `LLMEvaluator.evaluate_message`: returns the evaluation dict (with
its new id) and the updated store, or `None` leaving the store unchanged.
The pre-check `_is_already_evaluated` runs before any scoring. -/
def evaluate_message (evaluator_model : String) (message_id : Int) (w : EvalWorld)
    (s : EvalState) : Option Dict × EvalState :=
  match w.message_data with
  | none => (none, s)
  | some _ =>
    if is_already_evaluated s message_id then (none, s)
    else
      match w.llm with
      | .exn _ => (none, s)
      | .content parse =>
        match parse with
        | .error _ => (none, s)
        | .ok evaluation =>
          if requiredEvalFields.all (fun f => (evaluation.lookup f).isSome) then
            let s' : EvalState :=
              { evaluations := s.evaluations ++
                  [⟨w.newEvalId, message_id, evaluator_model⟩] }
            (some (dictSet evaluation "id" (.int w.newEvalId)), s')
          else (none, s)

/-- Number of stored evaluations for one message. -/
def countEvals (s : EvalState) (message_id : Int) : Nat :=
  (s.evaluations.filter (fun e => e.message_id = message_id)).length

/-! ## Shape of a tool-call batch on the wire -/

/-- Predicate `PairedToolEvents names es`: `es` is the concatenation, in order, of
one `tool_call`/`weather_data` pair per entry of `names` — each
`tool_call` immediately followed by its `weather_data`, function names in
the order requested. -/
inductive PairedToolEvents : List String → List Event → Prop where
  | nil : PairedToolEvents [] []
  | cons (n : String) (a : Args) (d : Dict) (t : Nat) (c : JVal)
      {ns : List String} {es : List Event} :
      PairedToolEvents ns es →
      PairedToolEvents (n :: ns) (.tool_call n a :: .weather_data d t c :: es)

/-! ## Concrete fixtures (used by witnesses and counterexamples) -/

/-- A tool world in which the upstream weather API is unreachable. -/
def downToolWorld : ToolWorld := ⟨.exn "connection timed out", .exn "connection timed out"⟩

/-- A well-formed forecast item (every field present). -/
def fcItem : ForecastItem :=
  ⟨some "2026-10-12 00:00:00", some 20, some 10, some "clear sky", some "01d", some 50, some 3⟩

/-- A successful forecast upstream response with a single 3-hourly item. -/
def fcOutcome : ForecastOutcome :=
  .resp 200 (.ok ⟨some [fcItem], some "Paris", some "FR"⟩)

/-- An empty current-weather payload: every required field access raises. -/
def emptyCurrentPayload : CurrentPayload :=
  ⟨none, none, none, none, none, none, none, none, none, none, none, none⟩

/-- ChatGPT world: one tool call with well-formed JSON arguments, then a
clean one-chunk commentary stream. -/
def oaWitnessWorld : OAWorld :=
  { first := .msg "" [⟨"call_1", "get_current_weather", .ok [("city", .str "Paris")]⟩],
    toolWorlds := fun _ => downToolWorld, toolTimes := fun _ => 3,
    commentary := ⟨[some "Stay dry out there."], none⟩, total_time := 42 }

/-- ChatGPT world: a plain-text first turn (no tool calls). -/
def oaPlainWorld : OAWorld :=
  { first := .msg "Hello! How can I help with the weather?" [],
    toolWorlds := fun _ => downToolWorld, toolTimes := fun _ => 0,
    commentary := ⟨[], none⟩, total_time := 17 }

/-- ChatGPT world: one tool call whose `arguments` string is not valid
JSON, so `json.loads` raises inside `_handle_with_tools`. -/
def oaCexWorld : OAWorld :=
  { first := .msg "" [⟨"call_1", "get_current_weather",
      .error "Expecting value: line 1 column 1 (char 0)"⟩],
    toolWorlds := fun _ => downToolWorld, toolTimes := fun _ => 0,
    commentary := ⟨[], none⟩, total_time := 42 }

/-- Gemini world: one function-call part, then a clean commentary stream. -/
def gemWitnessWorld : GemWorld :=
  { first := .response [⟨some ⟨"get_current_weather", [("city", .str "Paris")]⟩, none⟩],
    toolWorlds := fun _ => downToolWorld, toolTimes := fun _ => 5,
    commentary := ⟨[some "Pack an umbrella."], none⟩, total_time := 60 }

/-- Gemini world: a plain-text response of two text parts. -/
def gemPlainWorld : GemWorld :=
  { first := .response [⟨none, some "Hello"⟩, ⟨none, some " there"⟩],
    toolWorlds := fun _ => downToolWorld, toolTimes := fun _ => 0,
    commentary := ⟨[], none⟩, total_time := 9 }

/-- A fresh conversation state with no bound conversation. -/
def unboundState : ConversationState := { session_id := "sess-1", created_at := 0 }

/-- A state bound to a conversation, mid-response. -/
def boundState : ConversationState :=
  { session_id := "sess-2", conversation_id := some 7,
    response_start_time := some 100, response_content := "Sunny.",
    created_at := 0 }

/-- An evaluation store holding one evaluation for message 10. -/
def evalStateA : EvalState := ⟨[⟨1, 10, "gpt-5-nano"⟩]⟩

/-- An evaluator world whose scoring call would fail (never reached when
the pre-check fires). -/
def evalWorldA : EvalWorld := ⟨some [], .exn "rate limited", 2⟩

end Sarj

/-! # Theorems -/

namespace Sarj

/-- Mapped `text_delta` events satisfy no predicate that rejects them. -/
theorem filter_textDelta_map (p : Event → Bool) (h : ∀ s, p (Event.text_delta s) = false)
    (l : List String) : (l.map Event.text_delta).filter p = [] := by
  induction l with
  | nil => rfl
  | cons a t ih => simp [List.filter_cons, h, ih]

/-- Commentary events contain no `done`, `tool_call` or `weather_data`
events: only `text_start`, `text_delta`s and at most one `error`. -/
theorem commentaryEvents_filter (p : Event → Bool)
    (h₀ : p .text_start = false) (h₁ : ∀ s, p (.text_delta s) = false)
    (h₂ : ∀ m, p (.error m) = false) (o : StreamOutcome) :
    (commentaryEvents o).filter p = [] := by
  unfold commentaryEvents
  cases o.interrupt <;>
    simp [List.filter_append, List.filter_cons, h₀, h₁, h₂, filter_textDelta_map p h₁]

/-- Commentary events contain at most one `error` event. -/
theorem commentaryEvents_error_le_one (o : StreamOutcome) :
    ((commentaryEvents o).filter Event.isError).length ≤ 1 := by
  unfold commentaryEvents
  cases o.interrupt <;>
    simp [List.filter_append, List.filter_cons, Event.isError,
      filter_textDelta_map Event.isError (fun _ => rfl)]

/-- The ChatGPT tool loop yields only `tool_call` and `weather_data`
events. -/
theorem oaToolLoop_filter (w : OAWorld) (p : Event → Bool)
    (h₁ : ∀ n a, p (.tool_call n a) = false)
    (h₂ : ∀ d t c, p (.weather_data d t c) = false) :
    ∀ (cs : List OAToolCall) (i : Nat), ((oaToolLoop w cs i).1).filter p = [] := by
  intro cs
  induction cs with
  | nil => intro i; rfl
  | cons tc rest ih =>
    intro i
    unfold oaToolLoop
    cases tc.arguments with
    | error m => simp
    | ok args => simp [List.filter_append, List.filter_cons, h₁, h₂, ih]

/-- The Gemini tool loop yields only `tool_call` and `weather_data`
events. -/
theorem gemToolLoop_filter (w : GemWorld) (p : Event → Bool)
    (h₁ : ∀ n a, p (.tool_call n a) = false)
    (h₂ : ∀ d t c, p (.weather_data d t c) = false) :
    ∀ (calls : List GFunctionCall) (i : Nat), (gemToolLoop w calls i).filter p = [] := by
  intro calls
  induction calls with
  | nil => intro i; rfl
  | cons fc rest ih =>
    intro i
    unfold gemToolLoop
    simp [List.filter_append, List.filter_cons, h₁, h₂, ih]

/-- The body of the ChatGPT stream contains no `done` event. -/
theorem oaBody_no_done (w : OAWorld) : (oaBody w).filter Event.isDone = [] := by
  unfold oaBody
  cases w.first with
  | exn m => rfl
  | msg content cs =>
    dsimp only
    by_cases hcs : cs.isEmpty
    · rw [if_pos hcs]; rfl
    · rw [if_neg hcs]
      unfold oaHandleWithTools
      have hloop := oaToolLoop_filter w Event.isDone (fun _ _ => rfl) (fun _ _ _ => rfl) cs 0
      rcases hpair : oaToolLoop w cs 0 with ⟨evts, exn⟩
      rw [hpair] at hloop
      cases exn <;>
        simp [List.filter_append, List.filter_cons, Event.isDone, hloop,
          commentaryEvents_filter Event.isDone rfl (fun _ => rfl) (fun _ => rfl)]

/-- The body of the ChatGPT stream contains at most one `error` event. -/
theorem oaBody_error_le_one (w : OAWorld) :
    ((oaBody w).filter Event.isError).length ≤ 1 := by
  unfold oaBody
  cases w.first with
  | exn m => simp [List.filter_cons, Event.isError]
  | msg content cs =>
    dsimp only
    by_cases hcs : cs.isEmpty
    · rw [if_pos hcs]; simp [List.filter_cons, Event.isError]
    · rw [if_neg hcs]
      unfold oaHandleWithTools
      have hloop := oaToolLoop_filter w Event.isError (fun _ _ => rfl) (fun _ _ _ => rfl) cs 0
      rcases hpair : oaToolLoop w cs 0 with ⟨evts, exn⟩
      rw [hpair] at hloop
      cases exn with
      | none =>
        simp only [List.filter_append, hloop, List.nil_append]
        exact commentaryEvents_error_le_one w.commentary
      | some m =>
        simp [List.filter_append, List.filter_cons, Event.isError, hloop]

/-- The body of the Gemini stream contains no `done` event. -/
theorem gemBody_no_done (w : GemWorld) : (gemBody w).filter Event.isDone = [] := by
  unfold gemBody
  cases w.first with
  | exn m => rfl
  | response parts =>
    dsimp only
    by_cases hfc : parts.any (fun p => p.function_call.isSome)
    · rw [if_pos hfc]
      unfold gemHandleWithTools
      have hloop := gemToolLoop_filter w Event.isDone (fun _ _ => rfl) (fun _ _ _ => rfl)
        (parts.filterMap (·.function_call)) 0
      by_cases he : (parts.filterMap (·.function_call)).isEmpty <;>
        simp [he, List.filter_append, hloop,
          commentaryEvents_filter Event.isDone rfl (fun _ => rfl) (fun _ => rfl)]
    · rw [if_neg hfc]; rfl

/-- The body of the Gemini stream contains at most one `error` event. -/
theorem gemBody_error_le_one (w : GemWorld) :
    ((gemBody w).filter Event.isError).length ≤ 1 := by
  unfold gemBody
  cases w.first with
  | exn m => simp [List.filter_cons, Event.isError]
  | response parts =>
    dsimp only
    by_cases hfc : parts.any (fun p => p.function_call.isSome)
    · rw [if_pos hfc]
      unfold gemHandleWithTools
      have hloop := gemToolLoop_filter w Event.isError (fun _ _ => rfl) (fun _ _ _ => rfl)
        (parts.filterMap (·.function_call)) 0
      by_cases he : (parts.filterMap (·.function_call)).isEmpty
      · simp [he, List.filter_append, hloop]
      · dsimp only
        rw [if_neg he]
        simp only [List.filter_append, hloop, List.nil_append]
        exact commentaryEvents_error_le_one w.commentary
    · rw [if_neg hfc]
      simp [List.filter_cons, Event.isError]

/-- C1: For every valid request, both handlers' event sequences end with
exactly one `done` event — always the last event, carrying the measured
total time and the model name — and contain at most one `error` event.
Nothing propagates out of the generator uncaught: the embedded streams
are total functions into event lists (the `finally` clause is the
unconditional trailing `done`). -/
theorem stream_protocol_termination :
    (∀ (model : String) (w : OAWorld),
      ((chatgptStreamChat model w).filter Event.isDone).length = 1 ∧
      (chatgptStreamChat model w).getLast? = some (.done w.total_time model) ∧
      ((chatgptStreamChat model w).filter Event.isError).length ≤ 1) ∧
    (∀ (model_name : String) (w : GemWorld),
      ((geminiStreamChat model_name w).filter Event.isDone).length = 1 ∧
      (geminiStreamChat model_name w).getLast? = some (.done w.total_time model_name) ∧
      ((geminiStreamChat model_name w).filter Event.isError).length ≤ 1) := by
  constructor
  · intro model w
    refine ⟨?_, ?_, ?_⟩
    · simp [chatgptStreamChat, List.filter_append, oaBody_no_done, List.filter_cons,
        Event.isDone]
    · rw [chatgptStreamChat, List.getLast?_concat]
    · simpa [chatgptStreamChat, List.filter_append, List.filter_cons, Event.isError]
        using oaBody_error_le_one w
  · intro model_name w
    refine ⟨?_, ?_, ?_⟩
    · simp [geminiStreamChat, List.filter_append, gemBody_no_done, List.filter_cons,
        Event.isDone]
    · rw [geminiStreamChat, List.getLast?_concat]
    · simpa [geminiStreamChat, List.filter_append, List.filter_cons, Event.isError]
        using gemBody_error_le_one w



/-- A paired batch contains one `tool_call` event per requested name. -/
theorem PairedToolEvents.filter_toolCall {ns : List String} {es : List Event}
    (h : PairedToolEvents ns es) :
    (es.filter Event.isToolCall).length = ns.length := by
  induction h with
  | nil => rfl
  | cons n a d t c h ih =>
    simp [List.filter_cons, Event.isToolCall, ih]

/-- A paired batch contains one `weather_data` event per requested name. -/
theorem PairedToolEvents.filter_weatherData {ns : List String} {es : List Event}
    (h : PairedToolEvents ns es) :
    (es.filter Event.isWeatherData).length = ns.length := by
  induction h with
  | nil => rfl
  | cons n a d t c h ih =>
    simp [List.filter_cons, Event.isWeatherData, ih]

/-- When every tool call's arguments parse, the ChatGPT tool loop raises
nothing and yields exactly the interleaved pairs, names in order. -/
theorem oaToolLoop_all_ok (w : OAWorld) :
    ∀ (cs : List OAToolCall) (i : Nat), (∀ tc ∈ cs, ∃ a, tc.arguments = .ok a) →
    (oaToolLoop w cs i).2 = none ∧
      PairedToolEvents (cs.map (·.name)) (oaToolLoop w cs i).1 := by
  intro cs
  induction cs with
  | nil => exact fun _ _ => ⟨rfl, .nil⟩
  | cons tc rest ih =>
    intro i h
    obtain ⟨a, ha⟩ := h tc (List.mem_cons_self _ _)
    have hrest := ih (i + 1) (fun x hx => h x (List.mem_cons_of_mem _ hx))
    unfold oaToolLoop
    rw [ha]
    dsimp only
    exact ⟨hrest.1, .cons _ _ _ _ _ hrest.2⟩

/-- The Gemini tool loop yields exactly the interleaved pairs, names in
order (no argument parsing can fail). -/
theorem gemToolLoop_paired (w : GemWorld) :
    ∀ (calls : List GFunctionCall) (i : Nat),
    PairedToolEvents (calls.map (·.name)) (gemToolLoop w calls i) := by
  intro calls
  induction calls with
  | nil => exact fun _ => .nil
  | cons fc rest ih =>
    intro i
    unfold gemToolLoop
    exact .cons _ _ _ _ _ (ih (i + 1))

/-- A non-empty `filterMap` forces a truthy `any`. -/
theorem any_isSome_of_filterMap_ne_nil {α β : Type} (f : α → Option β) (l : List α)
    (h : l.filterMap f ≠ []) : l.any (fun x => (f x).isSome) = true := by
  induction l with
  | nil => exact absurd rfl h
  | cons a t ih =>
    rw [List.any_cons]
    cases hfa : f a with
    | some b => simp [hfa]
    | none =>
      have ht : t.filterMap f ≠ [] := by
        simpa [List.filterMap_cons, hfa] using h
      simp [hfa, ih ht]

/-- C2 (amended): for a first-turn result with N tool calls, *provided
each call's arguments string parses as JSON* (automatic for Gemini, whose
arguments arrive as mappings), the stream is the N interleaved
`tool_call`/`weather_data` pairs — names in the model's order, each
`tool_call` immediately followed by its `weather_data` — followed by a
commentary segment containing no tool events, then `done`.  A ChatGPT
call whose arguments fail to parse instead aborts the batch with an
`error` event (see the counterexample). -/
theorem tool_call_pairing :
    (∀ (model : String) (w : OAWorld) (content : String) (cs : List OAToolCall),
      w.first = .msg content cs → cs ≠ [] →
      (∀ tc ∈ cs, ∃ a, tc.arguments = .ok a) →
      ∃ front mid,
        chatgptStreamChat model w = front ++ mid ++ [.done w.total_time model] ∧
        PairedToolEvents (cs.map (·.name)) front ∧
        (front.filter Event.isToolCall).length = cs.length ∧
        (front.filter Event.isWeatherData).length = cs.length ∧
        mid.filter Event.isToolCall = [] ∧ mid.filter Event.isWeatherData = []) ∧
    (∀ (model_name : String) (w : GemWorld) (parts : List GPart),
      w.first = .response parts →
      parts.filterMap (·.function_call) ≠ [] →
      ∃ front mid,
        geminiStreamChat model_name w = front ++ mid ++ [.done w.total_time model_name] ∧
        PairedToolEvents ((parts.filterMap (·.function_call)).map (·.name)) front ∧
        (front.filter Event.isToolCall).length = (parts.filterMap (·.function_call)).length ∧
        (front.filter Event.isWeatherData).length = (parts.filterMap (·.function_call)).length ∧
        mid.filter Event.isToolCall = [] ∧ mid.filter Event.isWeatherData = []) := by
  constructor
  · intro model w content cs hfirst hne hok
    have hcs : ¬(cs.isEmpty = true) := by
      cases cs with
      | nil => exact absurd rfl hne
      | cons a l => simp
    rcases hpair : oaToolLoop w cs 0 with ⟨evts, exn⟩
    have hloop := oaToolLoop_all_ok w cs 0 hok
    rw [hpair] at hloop
    obtain ⟨hexn, hpaired⟩ := hloop
    dsimp only at hexn hpaired
    refine ⟨evts, commentaryEvents w.commentary, ?_, hpaired, ?_, ?_, ?_, ?_⟩
    · unfold chatgptStreamChat oaBody
      rw [hfirst]
      dsimp only
      rw [if_neg hcs]
      unfold oaHandleWithTools
      rw [hpair, hexn]
    · simpa using hpaired.filter_toolCall
    · simpa using hpaired.filter_weatherData
    · exact commentaryEvents_filter Event.isToolCall rfl (fun _ => rfl) (fun _ => rfl)
        w.commentary
    · exact commentaryEvents_filter Event.isWeatherData rfl (fun _ => rfl) (fun _ => rfl)
        w.commentary
  · intro model_name w parts hfirst hne
    have hany := any_isSome_of_filterMap_ne_nil (·.function_call) parts hne
    have hisE : ¬((parts.filterMap (·.function_call)).isEmpty = true) := by
      cases hfm : parts.filterMap (·.function_call) with
      | nil => exact absurd hfm hne
      | cons a l => simp
    refine ⟨gemToolLoop w (parts.filterMap (·.function_call)) 0, commentaryEvents w.commentary,
      ?_, gemToolLoop_paired w _ 0, ?_, ?_, ?_, ?_⟩
    · unfold geminiStreamChat gemBody
      rw [hfirst]
      dsimp only
      rw [if_pos hany]
      unfold gemHandleWithTools
      dsimp only
      rw [if_neg hisE, List.append_assoc]
    · simpa using (gemToolLoop_paired w (parts.filterMap (·.function_call)) 0).filter_toolCall
    · simpa using (gemToolLoop_paired w (parts.filterMap (·.function_call)) 0).filter_weatherData
    · exact commentaryEvents_filter Event.isToolCall rfl (fun _ => rfl) (fun _ => rfl)
        w.commentary
    · exact commentaryEvents_filter Event.isWeatherData rfl (fun _ => rfl) (fun _ => rfl)
        w.commentary

/-- Witness for C2: both handlers, one well-formed tool call each. -/
theorem tool_call_pairing_witness :
    (∃ front mid,
      chatgptStreamChat "gpt-5-nano" oaWitnessWorld =
        front ++ mid ++ [.done oaWitnessWorld.total_time "gpt-5-nano"] ∧
      PairedToolEvents ["get_current_weather"] front ∧
      (front.filter Event.isToolCall).length = 1 ∧
      (front.filter Event.isWeatherData).length = 1 ∧
      mid.filter Event.isToolCall = [] ∧ mid.filter Event.isWeatherData = []) ∧
    (∃ front mid,
      geminiStreamChat "gemini-2.0-flash-lite" gemWitnessWorld =
        front ++ mid ++ [.done gemWitnessWorld.total_time "gemini-2.0-flash-lite"] ∧
      PairedToolEvents ["get_current_weather"] front ∧
      (front.filter Event.isToolCall).length = 1 ∧
      (front.filter Event.isWeatherData).length = 1 ∧
      mid.filter Event.isToolCall = [] ∧ mid.filter Event.isWeatherData = []) := by
  constructor
  · exact tool_call_pairing.1 "gpt-5-nano" oaWitnessWorld "" _ rfl
      (by simp) (by intro tc htc; rw [List.mem_singleton] at htc; subst htc; exact ⟨_, rfl⟩)
  · exact tool_call_pairing.2 "gemini-2.0-flash-lite" gemWitnessWorld _ rfl (by simp)

/-- Counterexample to C2 as stated: the first turn contains one tool
call, but its arguments string fails `json.loads`, so the ChatGPT stream
emits zero `tool_call` events (an `error` event replaces the batch). -/
theorem tool_call_pairing_cex :
    (∃ content tc, oaCexWorld.first = OAFirst.msg content [tc]) ∧
    ((chatgptStreamChat "gpt-5-nano" oaCexWorld).filter Event.isToolCall).length ≠ 1 := by
  constructor
  · exact ⟨"", _, rfl⟩
  · have h0 : ((chatgptStreamChat "gpt-5-nano" oaCexWorld).filter Event.isToolCall).length = 0 :=
      rfl
    omega

/-- C3: a turn with zero tool calls emits `text_start` followed by the
full model text as a single `text_delta` (so the deltas concatenate to
the model's full returned text), then `done` — no `tool_call`,
`weather_data` or commentary events occur. -/
theorem plain_text_full_delivery :
    (∀ (model : String) (w : OAWorld) (content : String),
      w.first = .msg content [] →
      chatgptStreamChat model w =
        [.text_start, .text_delta content, .done w.total_time model]) ∧
    (∀ (model_name : String) (w : GemWorld) (parts : List GPart),
      w.first = .response parts →
      parts.any (fun p => p.function_call.isSome) = false →
      geminiStreamChat model_name w =
        [.text_start, .text_delta (gemFullText parts), .done w.total_time model_name]) := by
  constructor
  · intro model w content hfirst
    unfold chatgptStreamChat oaBody
    rw [hfirst]
    simp
  · intro model_name w parts hfirst hany
    unfold geminiStreamChat gemBody
    rw [hfirst]
    dsimp only
    rw [hany]
    simp

/-- Witness for C3: a plain-text turn for each handler. -/
theorem plain_text_full_delivery_witness :
    chatgptStreamChat "gpt-5-nano" oaPlainWorld =
      [.text_start, .text_delta "Hello! How can I help with the weather?",
       .done 17 "gpt-5-nano"] ∧
    geminiStreamChat "gemini-2.0-flash-lite" gemPlainWorld =
      [.text_start, .text_delta "Hello there", .done 9 "gemini-2.0-flash-lite"] := by
  constructor
  · exact plain_text_full_delivery.1 "gpt-5-nano" oaPlainWorld _ rfl
  · exact plain_text_full_delivery.2 "gemini-2.0-flash-lite" gemPlainWorld _ rfl rfl



/-- C4 (amended): a `/chat/stream` body that is missing `message`, whose
message is empty after trimming, or that (its message being absent or a
string) names an unsupported model, is answered with HTTP 400 and an
`{error}` JSON body; a 400 result opens no stream and carries no handler,
so no provider call is attempted.  Contrary to the claim as stated, a
body *missing the `model` field* is not rejected: the model defaults to
`"gpt-5-nano"` and the stream opens (see the counterexample); and a
non-string `message` yields HTTP 500, not 400. -/
theorem invalid_request_rejected :
    ((routeStreamChat none).isBadRequest = true) ∧
    (∀ d : Dict, d.lookup "message" = none →
      (routeStreamChat (some d)).isBadRequest = true) ∧
    (∀ (d : Dict) (s : String), d.lookup "message" = some (.str s) → pyStrip s = "" →
      (routeStreamChat (some d)).isBadRequest = true) ∧
    (∀ (d : Dict) (s : String) (m : JVal), d.lookup "message" = some (.str s) →
      pyStrip s ≠ "" → d.lookup "model" = some m →
      (∀ t, m = .str t → t ≠ "gpt-5-nano" ∧ t ≠ "gemini-2.0-flash-lite") →
      (routeStreamChat (some d)).isBadRequest = true) ∧
    (∀ (d : Dict) (s : String), d.lookup "message" = some (.str s) → pyStrip s ≠ "" →
      d.lookup "model" = none →
      routeStreamChat (some d) =
        .stream .chatgpt (pyStrip s) "gpt-5-nano" (d.lookup "session_id")) := by
  refine ⟨rfl, ?_, ?_, ?_, ?_⟩
  · intro d h
    unfold routeStreamChat
    dsimp only
    by_cases he : d.isEmpty
    · rw [if_pos he]
      rfl
    · rw [if_neg he, h]
      rfl
  · intro d s h ht
    have he : ¬(d.isEmpty = true) := by
      cases d with
      | nil => simp at h
      | cons a l => simp
    unfold routeStreamChat
    dsimp only
    rw [if_neg he, h]
    dsimp only [Option.getD]
    rw [ht]
    rfl
  · intro d s m hmsg htrim hmodel hm
    have he : ¬(d.isEmpty = true) := by
      cases d with
      | nil => simp at hmsg
      | cons a l => simp
    unfold routeStreamChat
    dsimp only
    rw [if_neg he, hmsg]
    dsimp only [Option.getD]
    rw [if_neg htrim, hmodel]
    dsimp only [Option.getD]
    cases m with
    | str t =>
      obtain ⟨h1, h2⟩ := hm t rfl
      dsimp only
      rw [if_neg (by simp [h1, h2])]
      rfl
    | int n => rfl
    | bool b => rfl
    | arr xs => rfl
    | obj fs => rfl
  · intro d s hmsg htrim hmodel
    have he : ¬(d.isEmpty = true) := by
      cases d with
      | nil => simp at hmsg
      | cons a l => simp
    unfold routeStreamChat
    dsimp only
    rw [if_neg he, hmsg]
    dsimp only [Option.getD]
    rw [if_neg htrim, hmodel]
    rfl

/-- Witness for C4 (amended): an all-whitespace message and an
unsupported model name are both rejected with 400. -/
theorem invalid_request_rejected_witness :
    (routeStreamChat (some [("message", JVal.str "   ")])).isBadRequest = true ∧
    (routeStreamChat
        (some [("message", JVal.str "hi"), ("model", JVal.str "claude")])).isBadRequest = true := by
  constructor
  · exact invalid_request_rejected.2.2.1 _ "   " rfl rfl
  · exact invalid_request_rejected.2.2.2.1 _ "hi" (.str "claude") rfl (by decide) rfl
      (by intro t ht; cases ht; exact ⟨by decide, by decide⟩)

/-- Counterexample to C4 as stated: a body missing the `model` field is
not answered with 400 — the model silently defaults to `gpt-5-nano` and
the event stream opens. -/
theorem invalid_request_rejected_cex :
    (([("message", JVal.str "hi")] : Dict).lookup "model" = none) ∧
    routeStreamChat (some [("message", JVal.str "hi")]) =
      .stream .chatgpt "hi" "gpt-5-nano" none ∧
    (routeStreamChat (some [("message", JVal.str "hi")])).isBadRequest = false :=
  ⟨rfl, rfl, rfl⟩

/-- C5: `_execute_tool` is a total function into result dictionaries — no
input raises.  An unrecognized name yields the structured error listing
the known tool names; an exception inside a tool body is caught at the
tool boundary and surfaces as an `{error, error_code}` envelope (likewise
a non-200 upstream status); a `TypeError` from binding bad arguments is
caught by `_execute_tool`'s own `try` and surfaces as an `{error,
function, arguments}` envelope. -/
theorem execute_tool_error_envelopes :
    ∀ (function_name : String) (args : Args) (w : ToolWorld),
    ((function_name ≠ "get_current_weather" ∧ function_name ≠ "get_weather_forecast") →
      execute_tool function_name args w =
        [("error", .str ("Unknown function: " ++ function_name)),
         ("available_functions",
          .arr [.str "get_current_weather", .str "get_weather_forecast"])]) ∧
    (∀ city units m, function_name = "get_current_weather" →
      bindCurrentArgs args = .ok (city, units) →
      getCurrentWeatherE units w.current = .error m →
      execute_tool function_name args w =
        [("error", .str ("Unexpected error getting weather data: " ++ m)),
         ("error_code", .str "unknown_error")]) ∧
    (∀ city days m, function_name = "get_weather_forecast" →
      bindForecastArgs args = .ok (city, days) →
      get_weather_forecastE days w.forecast = .error m →
      execute_tool function_name args w =
        [("error", .str ("Error getting weather forecast: " ++ m)),
         ("error_code", .str "unknown_error")]) ∧
    (∀ city units status body, function_name = "get_current_weather" →
      bindCurrentArgs args = .ok (city, units) →
      w.current = .resp status body → status ≠ 200 →
      execute_tool function_name args w =
        [("error", .str ("Weather API error: " ++ toString status)),
         ("error_code", .str "api_error")]) ∧
    (∀ m, function_name = "get_current_weather" → bindCurrentArgs args = .error m →
      execute_tool function_name args w =
        [("error", .str ("Tool execution failed: " ++ m)),
         ("function", .str function_name), ("arguments", .obj args)]) ∧
    (∀ m, function_name = "get_weather_forecast" → bindForecastArgs args = .error m →
      execute_tool function_name args w =
        [("error", .str ("Tool execution failed: " ++ m)),
         ("function", .str function_name), ("arguments", .obj args)]) := by
  intro function_name args w
  refine ⟨?_, ?_, ?_, ?_, ?_, ?_⟩
  · intro ⟨h1, h2⟩
    unfold execute_tool
    rw [if_neg h1, if_neg h2]
  · intro city units m hn hb hE
    subst hn
    unfold execute_tool
    rw [if_pos rfl, hb]
    dsimp only
    unfold get_current_weather
    rw [hE]
  · intro city days m hn hb hE
    subst hn
    unfold execute_tool
    rw [if_neg (by decide), if_pos rfl, hb]
    dsimp only
    unfold get_weather_forecast
    rw [hE]
  · intro city units status body hn hb hw hstatus
    subst hn
    unfold execute_tool
    rw [if_pos rfl, hb]
    dsimp only
    unfold get_current_weather getCurrentWeatherE
    rw [hw]
    dsimp only
    rw [if_pos hstatus]
  · intro m hn hb
    subst hn
    unfold execute_tool
    rw [if_pos rfl, hb]
  · intro m hn hb
    subst hn
    unfold execute_tool
    rw [if_neg (by decide), if_pos rfl, hb]

/-- Witness for C5: an unknown tool name, an upstream network failure and
an unexpected keyword argument, each at a concrete input. -/
theorem execute_tool_error_envelopes_witness :
    execute_tool "teleport" [] downToolWorld =
      [("error", .str "Unknown function: teleport"),
       ("available_functions",
        .arr [.str "get_current_weather", .str "get_weather_forecast"])] ∧
    execute_tool "get_current_weather" [("city", .str "Paris")] downToolWorld =
      [("error", .str "Unexpected error getting weather data: connection timed out"),
       ("error_code", .str "unknown_error")] ∧
    execute_tool "get_current_weather"
        [("city", .str "Paris"), ("volume", .int 11)] downToolWorld =
      [("error",
        .str "Tool execution failed: get_current_weather() got an unexpected keyword argument"),
       ("function", .str "get_current_weather"),
       ("arguments", .obj [("city", .str "Paris"), ("volume", .int 11)])] := by
  refine ⟨?_, ?_, ?_⟩
  · exact (execute_tool_error_envelopes "teleport" [] downToolWorld).1 ⟨by decide, by decide⟩
  · exact (execute_tool_error_envelopes "get_current_weather" [("city", .str "Paris")]
      downToolWorld).2.1 (.str "Paris") (.str "celsius") "connection timed out" rfl rfl rfl
  · exact (execute_tool_error_envelopes "get_current_weather"
      [("city", .str "Paris"), ("volume", .int 11)] downToolWorld).2.2.2.2.1 _ rfl rfl



/-- C6: every `ContextManager` operation keeps at most one pending tool
call (the pending slot is a single optional value, and no operation can
populate more than it): `set_pending_tool_call` stores exactly the one
given call, replacing any previous one; `resolve_pending_tool_call`
always leaves the slot empty and appends at most one record;
`start_conversation` creates the slot empty; and the remaining
operations never create a pending call. -/
theorem pending_tool_call_at_most_one :
    (∀ (n : String) (a : Args) (s : ConversationState),
      (ContextManager.set_pending_tool_call n a s).pending_tool_call = some ⟨n, a⟩) ∧
    (∀ (r : Dict) (t : Nat) (e : Option String) (s : ConversationState),
      (ContextManager.resolve_pending_tool_call r t e s).pending_tool_call = none ∧
      ((ContextManager.resolve_pending_tool_call r t e s).tool_calls.length =
          s.tool_calls.length ∨
        (ContextManager.resolve_pending_tool_call r t e s).tool_calls.length =
          s.tool_calls.length + 1)) ∧
    (∀ sid ip ua mn u c now,
      (ContextManager.start_conversation sid ip ua mn u c now).pending_tool_call = none) ∧
    (∀ mid u c now (s : ConversationState),
      (ContextManager.set_user_message mid u c now s).pending_tool_call =
          s.pending_tool_call ∨
        (ContextManager.set_user_message mid u c now s).pending_tool_call = none) ∧
    (∀ now (s : ConversationState),
      (ContextManager.start_assistant_response now s).pending_tool_call =
        s.pending_tool_call) ∧
    (∀ d (s : ConversationState),
      (ContextManager.append_response d s).pending_tool_call = s.pending_tool_call) ∧
    (∀ eo em now mid (s : ConversationState) r,
      ContextManager.finalize_assistant_response eo em now mid s = .ok r →
      r.2.1.pending_tool_call = s.pending_tool_call) := by
  refine ⟨fun _ _ _ => rfl, ?_, fun _ _ _ _ _ _ _ => rfl, ?_, fun _ _ => rfl,
    fun _ _ => rfl, ?_⟩
  · intro r t e s
    unfold ContextManager.resolve_pending_tool_call
    cases hp : s.pending_tool_call with
    | none => exact ⟨hp, Or.inl rfl⟩
    | some p => exact ⟨rfl, Or.inr (by simp)⟩
  · intro mid u c now s
    unfold ContextManager.set_user_message
    by_cases h : optIntFalsy s.conversation_id = true
    · rw [if_pos h]
      exact Or.inr rfl
    · rw [if_neg h]
      exact Or.inl rfl
  · intro eo em now mid s r hr
    unfold ContextManager.finalize_assistant_response at hr
    by_cases h : optIntFalsy s.conversation_id = true
    · rw [if_pos h] at hr
      cases hr
      rfl
    · rw [if_neg h] at hr
      cases hst : s.response_start_time with
      | none => rw [hst] at hr; cases hr
      | some start => rw [hst] at hr; cases hr; rfl

/-- Witness for C6: finalizing a bound state preserves the (empty)
pending slot. -/
theorem pending_tool_call_at_most_one_witness :
    ∃ r, ContextManager.finalize_assistant_response false none 200 11 boundState = .ok r ∧
      r.2.1.pending_tool_call = boundState.pending_tool_call :=
  ⟨_, rfl, pending_tool_call_at_most_one.2.2.2.2.2.2 false none 200 11 boundState _ rfl⟩

/-- C7: resolving with no pending tool call is a complete no-op — the
returned state is the input state, every field included. -/
theorem resolve_pending_noop :
    ∀ (r : Dict) (t : Nat) (e : Option String) (s : ConversationState),
    s.pending_tool_call = none →
    ContextManager.resolve_pending_tool_call r t e s = s := by
  intro r t e s h
  unfold ContextManager.resolve_pending_tool_call
  rw [h]

/-- Witness for C7. -/
theorem resolve_pending_noop_witness :
    unboundState.pending_tool_call = none ∧
    ContextManager.resolve_pending_tool_call [] 5 none unboundState = unboundState :=
  ⟨rfl, resolve_pending_noop [] 5 none unboundState rfl⟩

/-- C8: finalization with no bound conversation id returns no persisted
id, performs no persistence write, leaves the state unchanged and does
not raise. -/
theorem finalize_unbound_noop :
    ∀ (eo : Bool) (em : Option String) (now : Nat) (mid : Int) (s : ConversationState),
    s.conversation_id = none →
    ContextManager.finalize_assistant_response eo em now mid s = .ok (none, s, []) := by
  intro eo em now mid s h
  unfold ContextManager.finalize_assistant_response
  rw [h]
  rfl

/-- Witness for C8. -/
theorem finalize_unbound_noop_witness :
    unboundState.conversation_id = none ∧
    ContextManager.finalize_assistant_response false none 50 9 unboundState =
      .ok (none, unboundState, []) :=
  ⟨rfl, finalize_unbound_noop false none 50 9 unboundState rfl⟩

/-- An unevaluated message has no stored evaluations. -/
theorem countEvals_zero (l : List EvalRow) (mid : Int)
    (h : l.any (fun e => e.message_id = mid) = false) :
    (l.filter (fun e => e.message_id = mid)).length = 0 := by
  induction l with
  | nil => rfl
  | cons a t ih =>
    simp only [List.any_cons, Bool.or_eq_false_iff] at h
    simp [List.filter_cons, h.1, ih h.2]

/-- C9: the pre-check runs before scoring — when an evaluation for the
message already exists, `evaluate_message` returns `None` and stores
nothing; and no single call ever pushes a message's evaluation count
above one (so at most one evaluation is ever created per message, a
fortiori per (message, evaluator) pair). -/
theorem evaluation_precheck_unique :
    (∀ (em : String) (mid : Int) (w : EvalWorld) (s : EvalState),
      is_already_evaluated s mid = true →
      evaluate_message em mid w s = (none, s)) ∧
    (∀ (em : String) (mid : Int) (w : EvalWorld) (s : EvalState),
      countEvals (evaluate_message em mid w s).2 mid ≤ max (countEvals s mid) 1) := by
  constructor
  · intro em mid w s h
    unfold evaluate_message
    cases w.message_data with
    | none => rfl
    | some md => simp [h]
  · intro em mid w s
    unfold evaluate_message
    cases w.message_data with
    | none => exact le_max_left _ _
    | some md =>
      by_cases h : is_already_evaluated s mid = true
      · rw [if_pos h]
        exact le_max_left _ _
      · rw [if_neg h]
        have hb : is_already_evaluated s mid = false := by simpa using h
        have hz : countEvals s mid = 0 := countEvals_zero s.evaluations mid hb
        cases w.llm with
        | exn m => exact le_max_left _ _
        | content parse =>
          cases parse with
          | error m => exact le_max_left _ _
          | ok evaluation =>
            dsimp only
            by_cases hf : requiredEvalFields.all
                (fun f => (evaluation.lookup f).isSome) = true
            · rw [if_pos hf]
              have hcount :
                  countEvals
                    { evaluations := s.evaluations ++ [⟨w.newEvalId, mid, em⟩] } mid =
                    countEvals s mid + 1 := by
                unfold countEvals
                simp [List.filter_append]
              simp only [hcount, hz]
              exact le_max_right _ _
            · rw [if_neg hf]
              exact le_max_left _ _

/-- Witness for C9: message 10 of `evalStateA` is already evaluated, so
a second evaluation attempt is refused and the store is untouched. -/
theorem evaluation_precheck_unique_witness :
    is_already_evaluated evalStateA 10 = true ∧
    evaluate_message "gpt-5-nano" 10 evalWorldA evalStateA = (none, evalStateA) :=
  ⟨rfl, evaluation_precheck_unique.1 "gpt-5-nano" 10 evalWorldA evalStateA rfl⟩

/-- C10: for every integer `days` argument, every successful forecast
result reports `days_requested = max(1, min(days, 5))`, returns at most
that many daily entries, and reports `days_returned` equal to the length
of the returned forecast list. -/
theorem forecast_day_clamping :
    ∀ (city : JVal) (n : Int) (w : ForecastOutcome),
    (get_weather_forecast city (.int n) w).lookup "error" = none →
    (get_weather_forecast city (.int n) w).lookup "days_requested" =
        some (.int (max 1 (min n 5))) ∧
    ∃ l : List JVal,
      (get_weather_forecast city (.int n) w).lookup "forecast" = some (.arr l) ∧
      l.length ≤ (max 1 (min n 5)).toNat ∧
      (get_weather_forecast city (.int n) w).lookup "days_returned" =
        some (.int l.length) := by
  intro city n w h
  unfold get_weather_forecast get_weather_forecastE at h ⊢
  dsimp only at h ⊢
  cases w with
  | exn m => simp at h
  | resp status body =>
    dsimp only at h ⊢
    by_cases hst : status = 200
    · rw [if_neg (not_not_intro hst)] at h ⊢
      cases body with
      | error m => simp at h
      | ok d =>
        dsimp only at h ⊢
        cases hdl : d.list with
        | none => simp [hdl] at h
        | some items =>
          simp only [hdl] at h ⊢
          cases hfl : forecastLoop items none none with
          | error m => simp [hfl] at h
          | ok forecasts =>
            simp only [hfl] at h ⊢
            cases hcn : d.city_name with
            | none => cases hcc : d.city_country <;> simp [hcn, hcc] at h
            | some cityName =>
              cases hcc : d.city_country with
              | none => simp [hcn, hcc] at h
              | some country =>
                simp only [hcn, hcc] at h ⊢
                refine ⟨rfl,
                  (forecasts.take (max 1 (min n 5)).toNat).map dailyDict, rfl, ?_, ?_⟩
                · rw [List.length_map, List.length_take]
                  exact Nat.min_le_left _ _
                · rw [List.length_map]
                  rfl
    · rw [if_pos hst] at h
      simp at h

/-- Witness for C10: a successful one-item forecast response queried
with `days = 9` (clamped to 5). -/
theorem forecast_day_clamping_witness :
    (get_weather_forecast (.str "Paris") (.int 9) fcOutcome).lookup "error" = none ∧
    ((get_weather_forecast (.str "Paris") (.int 9) fcOutcome).lookup "days_requested" =
        some (.int (max 1 (min (9 : Int) 5))) ∧
      ∃ l : List JVal,
        (get_weather_forecast (.str "Paris") (.int 9) fcOutcome).lookup "forecast" =
          some (.arr l) ∧
        l.length ≤ (max 1 (min (9 : Int) 5)).toNat ∧
        (get_weather_forecast (.str "Paris") (.int 9) fcOutcome).lookup "days_returned" =
          some (.int l.length)) :=
  ⟨rfl, forecast_day_clamping (.str "Paris") 9 fcOutcome rfl⟩

end Sarj
